import Mathlib

set_option maxRecDepth 4000

/-!
Verification of the interactive upgrade orchestrator of the MarkLogic
Kubernetes operator.

The development shallowly embeds the Go sources
`internal/controller/marklogiccluster_controller.go` (upgrade workflow state
machine, rolling-upgrade status checks) and
`internal/handler/precheck_handler.go` (precheck runner and report
serialization) as executable Lean definitions, and proves properties of the
embedded code.

Modelling conventions:
- Kubernetes annotations are a partial map `String → Option String`; reading a
  missing key yields the empty string, exactly as a Go `map[string]string`
  read does.
- Timestamps (`time.Now`, `metav1.Now`, `CreationTimestamp`) are opaque `Int`
  instants passed in as a `now` parameter; durations are in seconds.
- The in-memory cluster object doubles as the store: the workflow model
  (`HandleUpgradeWorkflow` below) treats the two Kubernetes writes
  (`Update` for the object, `Status().Update` for the status subresource) as
  succeeding, matching a run in which the API server accepts every write.
  The fallible two-phase write is modelled separately and explicitly by
  `updateUpgradeStateWithResultsStore` for the atomicity analysis.
- `Recorder.Event` calls are collected in an event trace; log statements have
  no observable effect and are dropped.
-/

/-- Kubernetes annotations: a partial map from keys to string values. -/
abbrev Annotations := String → Option String

/-- Reading a key from a Go `map[string]string`: a missing key yields `""`. -/
def annGet (a : Annotations) (k : String) : String := (a k).getD ""

/-- `m[k] = v` on a Go map. -/
def annSet (a : Annotations) (k v : String) : Annotations :=
  fun x => if x = k then some v else a x

/-- `delete(m, k)` on a Go map. -/
def annDelete (a : Annotations) (k : String) : Annotations :=
  fun x => if x = k then none else a x

/-- Build an annotation map from a list of key/value pairs. -/
def annOf (ps : List (String × String)) : Annotations := fun k => ps.lookup k

/-- A `metav1.Condition`: `Type`, `Status` (the strings "True"/"False"),
`Reason`, `Message`, `LastTransitionTime`. -/
structure Condition where
  type' : String
  status : String
  reason : String
  message : String
  lastTransitionTime : Int
deriving Repr, DecidableEq

/-- The status subrecord of a `MarklogicCluster` (the fields the upgrade
workflow reads or writes). -/
structure MarklogicClusterStatus where
  currentImage : String
  upgradeState : String
  upgradePaused : Bool
  lastUpgradeTime : Option Int
  conditions : List Condition
deriving Repr, DecidableEq

/-- One entry of `Spec.MarkLogicGroups`: the group name and the desired
replica count (the Go field is a non-nil `*int32`, modelled by its value). -/
structure MarklogicGroups where
  name : String
  replicas : Int
deriving Repr, DecidableEq

/-- The `MarklogicCluster` object as seen by the upgrade workflow:
metadata (name, namespace, creation timestamp, annotations), the spec image
and member groups, and the status subrecord. -/
structure MarklogicCluster where
  name : String
  nsName : String
  creationTimestamp : Int
  specImage : String
  markLogicGroups : List MarklogicGroups
  annotations : Annotations
  status : MarklogicClusterStatus

/-- A recorded Kubernetes event: `(eventtype, reason, message)`. -/
structure Event where
  etype : String
  reason : String
  message : String
deriving Repr, DecidableEq

/-- `ctrl.Result`: the requeue hint returned by a reconcile step.
`requeueAfter` is in minutes (`0` = no requeue), mirroring the
`time.Minute * n` constants of the source. -/
structure CtrlResult where
  requeueAfter : Nat := 0
deriving Repr, DecidableEq

/-- The observable outcome of one workflow invocation: the cluster object as
persisted, the `ctrl.Result`, the emitted events in order, and the returned
error. -/
structure WorkflowOut where
  cluster : MarklogicCluster
  res : CtrlResult
  events : List Event
  err : Option String

-- Upgrade state string constants (`UpgradeState` values of the source).
def UpgradeStateIdle : String := "Idle"
def UpgradeStatePrecheckStart : String := "PrecheckStarted"
def UpgradeStatePrecheckDone : String := "PrecheckCompleted"
def UpgradeStateWaitingUser : String := "WaitingForUserApproval"
def UpgradeStateInProgress : String := "UpgradeInProgress"
def UpgradeStateCompleted : String := "UpgradeCompleted"
def UpgradeStateFailed : String := "UpgradeFailed"
def UpgradeStateCancelled : String := "UpgradeCancelled"
def UpgradeStatePaused : String := "UpgradePaused"

-- Annotation keys for upgrade control (the constants of the source).
def AnnotationTriggerUpgrade : String := "marklogic.com/trigger-upgrade"
def AnnotationProceedUpgrade : String := "marklogic.com/proceed-with-upgrade"
def AnnotationCancelUpgrade : String := "marklogic.com/cancel-upgrade"
def AnnotationUpgradeState : String := "marklogic.com/upgrade-state"
def AnnotationPrecheckResults : String := "marklogic.com/precheck-results"
def AnnotationSkipForestCheck : String := "marklogic.com/skip-forest-check"

/-! ### Precheck runner (`internal/handler/precheck_handler.go`) -/

/-- `PrecheckResult`: the result of a single precheck. `timestamp` is the
opaque instant recorded by `time.Now()`. -/
structure PrecheckResult where
  name : String
  status : String
  message : String
  details : String
  timestamp : Int
  duration : String
  remediation : String
deriving Repr, DecidableEq

/-- `PrecheckSummary`: the derived overview of a precheck report. -/
structure PrecheckSummary where
  total : Int
  passed : Int
  warnings : Int
  failed : Int
  canProceed : Bool
deriving Repr, DecidableEq

/-- `PrecheckResults`: all precheck results plus summary, timestamp and the
`namespace/name` cluster reference. -/
structure PrecheckResults where
  results : List PrecheckResult
  summary : PrecheckSummary
  timestamp : Int
  clusterRef : String
deriving Repr, DecidableEq

/-- The counting loop of `generateMockPrecheckResults`: the `switch` on each
result's status, accumulating `(passed, warnings, failed)`. -/
def countStatuses (results : List PrecheckResult) : Int × Int × Int :=
  results.foldl
    (fun acc r =>
      if r.status = "PASS" then (acc.1 + 1, acc.2.1, acc.2.2)
      else if r.status = "WARN" then (acc.1, acc.2.1 + 1, acc.2.2)
      else if r.status = "FAIL" then (acc.1, acc.2.1, acc.2.2 + 1)
      else acc)
    (0, 0, 0)

/-- `generateMockPrecheckResults`: the fixed battery of eight checks, the
forest check depending on the skip flag, followed by the summary
computation with `canProceed := failed == 0`. -/
def generateMockPrecheckResults (now : Int) (cluster : MarklogicCluster)
    (skipForestCheck : Bool) : PrecheckResults :=
  let results : List PrecheckResult :=
    [{ name := "Image Change Validation", status := "PASS",
       message := "New image version validated and accessible",
       details := "Target image: " ++ cluster.specImage,
       timestamp := now, duration := "1.5s", remediation := "" },
     { name := "Cluster Health Check", status := "PASS",
       message := "All cluster nodes are healthy and responding",
       details := "", timestamp := now, duration := "2.5s", remediation := "" },
     { name := "Database Connectivity", status := "PASS",
       message := "All databases are accessible and responsive",
       details := "", timestamp := now, duration := "1.8s", remediation := "" }]
    ++ (if !skipForestCheck then
        [{ name := "Forest Health Check", status := "WARN",
           message := "Some forests show minor performance degradation",
           details := "Forests in data-node-2 showing 5% higher response times",
           timestamp := now, duration := "4.2s",
           remediation := "Monitor forest performance during upgrade" }]
      else
        [{ name := "Forest Health Check", status := "PASS",
           message := "Forest health check skipped per annotation",
           details := "", timestamp := now, duration := "0s", remediation := "" }])
    ++ [{ name := "Resource Availability", status := "PASS",
          message := "Sufficient CPU and memory available for upgrade",
          details := "CPU: 65% used, Memory: 70% used, Storage: 45% used",
          timestamp := now, duration := "1.2s", remediation := "" },
        { name := "Backup Status", status := "WARN",
          message := "Latest backup is 25 hours old",
          details := "Last successful backup: 2024-01-15 10:30:00 UTC",
          timestamp := now, duration := "0.8s",
          remediation := "Consider creating a fresh backup before proceeding" },
        { name := "License Validation", status := "PASS",
          message := "MarkLogic license is valid and has sufficient capacity",
          details := "", timestamp := now, duration := "0.5s", remediation := "" },
        { name := "Network Connectivity", status := "PASS",
          message := "All inter-node network connections are healthy",
          details := "", timestamp := now, duration := "3.1s", remediation := "" }]
  let total : Int := results.length
  let counts := countStatuses results
  let canProceed := counts.2.2 == 0
  { results := results,
    summary := { total := total, passed := counts.1, warnings := counts.2.1,
                 failed := counts.2.2, canProceed := canProceed },
    timestamp := now,
    clusterRef := cluster.nsName ++ "/" ++ cluster.name }

/-- `StartPrechecks`: the fire-and-forget initiation; emits one event and
returns no error. -/
def StartPrechecks (cluster : MarklogicCluster) : List Event × Option String :=
  ([{ etype := "Normal", reason := "PrecheckStarted",
      message := "Starting upgrade prechecks" }], none)

/-- `CheckPrecheckStatus`: reads the skip-forest-check annotation, generates
the mock report, and returns `(completed = true, report, nil)`. -/
def CheckPrecheckStatus (now : Int) (cluster : MarklogicCluster) :
    Bool × PrecheckResults × Option String :=
  let skipForestCheck := annGet cluster.annotations AnnotationSkipForestCheck = "true"
  let results := generateMockPrecheckResults now cluster skipForestCheck
  (true, results, none)

/-! ### Report serialization (`ToJSON` / `PrecheckResultsFromJSON`)

`encoding/json` maps a `PrecheckResults` value to a JSON document according
to the struct tags (`omitempty` on `details` and `remediation`), and back.
The document is modelled as a JSON value tree; the text rendering of the
tree (a standard-library concern, not repository code) is also provided so
the workflow model can store a report in the annotation map. -/

/-- A JSON document. `time.Time` leaves are modelled as their opaque `Int`
instant (the RFC3339 rendering used by `encoding/json` is injective). -/
inductive JsonVal where
  | str : String → JsonVal
  | num : Int → JsonVal
  | bool : Bool → JsonVal
  | null : JsonVal
  | arr : List JsonVal → JsonVal
  | obj : List (String × JsonVal) → JsonVal

/-- Escape a character for a JSON string literal. -/
def escapeChar (c : Char) : String :=
  if c = '"' then "\\\"" else if c = '\\' then "\\\\" else String.singleton c

/-- Escape a string for a JSON string literal. -/
def escapeStr (s : String) : String := String.join (s.toList.map escapeChar)

mutual

/-- Render a JSON value as text. -/
def JsonVal.render : JsonVal → String
  | .str s => "\"" ++ escapeStr s ++ "\""
  | .num n => toString n
  | .bool b => if b then "true" else "false"
  | .null => "null"
  | .arr xs => "[" ++ JsonVal.renderItems xs ++ "]"
  | .obj fs => "\x7b" ++ JsonVal.renderFields fs ++ "\x7d"

/-- Render array items, comma-separated. -/
def JsonVal.renderItems : List JsonVal → String
  | [] => ""
  | [x] => x.render
  | x :: y :: xs => x.render ++ "," ++ JsonVal.renderItems (y :: xs)

/-- Render object fields, comma-separated. -/
def JsonVal.renderFields : List (String × JsonVal) → String
  | [] => ""
  | [(k, v)] => "\"" ++ escapeStr k ++ "\":" ++ v.render
  | (k, v) :: y :: xs =>
      "\"" ++ escapeStr k ++ "\":" ++ v.render ++ "," ++ JsonVal.renderFields (y :: xs)

end

/-- Field lookup in a JSON object, as `json.Unmarshal` matches keys. -/
def lookupField : List (String × JsonVal) → String → Option JsonVal
  | [], _ => none
  | (k', v) :: rest, k => if k' = k then some v else lookupField rest k

/-- Decode a string field: a missing field keeps the zero value `""`; a
present field must be a JSON string, anything else is a type error. -/
def fieldAsStr : Option JsonVal → Option String
  | Option.none => some ""
  | some (JsonVal.str s) => some s
  | some _ => none

/-- Decode an integer field (zero value `0` when missing). -/
def fieldAsInt : Option JsonVal → Option Int
  | Option.none => some 0
  | some (JsonVal.num n) => some n
  | some _ => none

/-- Decode a boolean field (zero value `false` when missing). -/
def fieldAsBool : Option JsonVal → Option Bool
  | Option.none => some false
  | some (JsonVal.bool b) => some b
  | some _ => none

/-- `json.Marshal` on one `PrecheckResult`: fields in struct order,
`details` and `remediation` omitted when empty. -/
def precheckResultToJson (r : PrecheckResult) : JsonVal :=
  JsonVal.obj
    ([("name", JsonVal.str r.name), ("status", JsonVal.str r.status),
      ("message", JsonVal.str r.message)]
     ++ (if r.details = "" then [] else [("details", JsonVal.str r.details)])
     ++ [("timestamp", JsonVal.num r.timestamp),
         ("duration", JsonVal.str r.duration)]
     ++ (if r.remediation = "" then []
         else [("remediation", JsonVal.str r.remediation)]))

/-- `json.Unmarshal` into one `PrecheckResult`. -/
def precheckResultFromJson : JsonVal → Option PrecheckResult
  | JsonVal.obj fs => do
    let name ← fieldAsStr (lookupField fs "name")
    let status ← fieldAsStr (lookupField fs "status")
    let message ← fieldAsStr (lookupField fs "message")
    let details ← fieldAsStr (lookupField fs "details")
    let timestamp ← fieldAsInt (lookupField fs "timestamp")
    let duration ← fieldAsStr (lookupField fs "duration")
    let remediation ← fieldAsStr (lookupField fs "remediation")
    some { name := name, status := status, message := message,
           details := details, timestamp := timestamp, duration := duration,
           remediation := remediation }
  | _ => none

/-- `json.Marshal` on a `PrecheckSummary`. -/
def precheckSummaryToJson (s : PrecheckSummary) : JsonVal :=
  JsonVal.obj
    [("total", JsonVal.num s.total), ("passed", JsonVal.num s.passed),
     ("warnings", JsonVal.num s.warnings), ("failed", JsonVal.num s.failed),
     ("canProceed", JsonVal.bool s.canProceed)]

/-- `json.Unmarshal` into a `PrecheckSummary`. -/
def precheckSummaryFromJson : JsonVal → Option PrecheckSummary
  | JsonVal.obj fs => do
    let total ← fieldAsInt (lookupField fs "total")
    let passed ← fieldAsInt (lookupField fs "passed")
    let warnings ← fieldAsInt (lookupField fs "warnings")
    let failed ← fieldAsInt (lookupField fs "failed")
    let canProceed ← fieldAsBool (lookupField fs "canProceed")
    some { total := total, passed := passed, warnings := warnings,
           failed := failed, canProceed := canProceed }
  | _ => none

/-- `json.Marshal` on a full `PrecheckResults` report. -/
def precheckResultsToJson (r : PrecheckResults) : JsonVal :=
  JsonVal.obj
    [("results", JsonVal.arr (r.results.map precheckResultToJson)),
     ("summary", precheckSummaryToJson r.summary),
     ("timestamp", JsonVal.num r.timestamp),
     ("clusterRef", JsonVal.str r.clusterRef)]

/-- Decode a JSON array elementwise into `[]PrecheckResult`, failing on the
first element `json.Unmarshal` would reject. -/
def decodeResultsList : List JsonVal → Option (List PrecheckResult)
  | [] => some []
  | j :: js => do
    let x ← precheckResultFromJson j
    let xs ← decodeResultsList js
    some (x :: xs)

/-- `json.Unmarshal` into a full `PrecheckResults` report. -/
def precheckResultsFromJson : JsonVal → Option PrecheckResults
  | JsonVal.obj fs => do
    let results ←
      match lookupField fs "results" with
      | Option.none => some []
      | some (JsonVal.arr js) => decodeResultsList js
      | some _ => none
    let summary ←
      match lookupField fs "summary" with
      | Option.none => some { total := 0, passed := 0, warnings := 0,
                              failed := 0, canProceed := false }
      | some j => precheckSummaryFromJson j
    let timestamp ← fieldAsInt (lookupField fs "timestamp")
    let clusterRef ← fieldAsStr (lookupField fs "clusterRef")
    some { results := results, summary := summary, timestamp := timestamp,
           clusterRef := clusterRef }
  | _ => none

/-- `PrecheckResults.ToJSON`: serialize the report; `json.Marshal` cannot
fail on this type, so the error component is `none`. -/
def PrecheckResults.ToJSON (r : PrecheckResults) : String × Option String :=
  ((precheckResultsToJson r).render, none)

/-! ### Rolling upgrade executor (`rollingupgrade` handler part of the
controller source) -/

/-- The live StatefulSet store: maps a StatefulSet name to its
`Status.ReadyReplicas`, or `none` when no such workload exists
(`r.Get` returns a not-found error). -/
abbrev StsStore := String → Option Int

/-- `checkStatefulSetUpgradeStatus`: a missing StatefulSet yields
`(false, nil)`; an existing one is complete exactly when
`Status.ReadyReplicas == *group.Replicas`. -/
def checkStatefulSetUpgradeStatus (env : StsStore) (group : MarklogicGroups) :
    Bool × Option String :=
  match env group.name with
  | Option.none => (false, none)
  | some readyReplicas =>
      if readyReplicas = group.replicas then (true, none) else (false, none)

/-- The group loop of `checkUpgradeProgress`: early-returns the first group
error, otherwise conjoins the per-group completion flags across all
groups. -/
def checkGroupsUpdated (env : StsStore) : List MarklogicGroups → Bool × Option String
  | [] => (true, none)
  | group :: rest =>
    match checkStatefulSetUpgradeStatus env group with
    | (_, some e) => (false, some e)
    | (updated, Option.none) =>
      match checkGroupsUpdated env rest with
      | (_, some e) => (false, some e)
      | (restUpdated, Option.none) => (updated && restUpdated, none)

/-- `performClusterHealthCheck`: emits the five simulated health-check events
plus `HealthCheckPassed`, and always reports healthy. -/
def performClusterHealthCheck (_cluster : MarklogicCluster) :
    Bool × Option String × List Event :=
  (true, none,
   [{ etype := "Normal", reason := "HealthCheck", message := "Checking MarkLogic cluster status" },
    { etype := "Normal", reason := "HealthCheck", message := "Validating node connectivity" },
    { etype := "Normal", reason := "HealthCheck", message := "Testing database access" },
    { etype := "Normal", reason := "HealthCheck", message := "Verifying cluster configuration" },
    { etype := "Normal", reason := "HealthCheck", message := "Running basic functionality tests" },
    { etype := "Normal", reason := "HealthCheckPassed", message := "Post-upgrade cluster health check passed" }])

/-- Result of `checkUpgradeProgress`: completion flag, error, whether the
cluster-wide health probe was invoked (ghost instrumentation), and the
events emitted by the probe. -/
structure ProgressOut where
  done : Bool
  err : Option String
  healthAttempted : Bool
  events : List Event
deriving Repr, DecidableEq

/-- `checkUpgradeProgress`: all groups must be updated before the cluster
health check is attempted; `done` requires both. -/
def checkUpgradeProgress (env : StsStore) (cluster : MarklogicCluster) : ProgressOut :=
  match checkGroupsUpdated env cluster.markLogicGroups with
  | (_, some e) => { done := false, err := some e, healthAttempted := false, events := [] }
  | (allUpdated, Option.none) =>
    if allUpdated then
      match performClusterHealthCheck cluster with
      | (_, some e, evs) => { done := false, err := some e, healthAttempted := true, events := evs }
      | (healthy, Option.none, evs) =>
        if healthy then { done := true, err := none, healthAttempted := true, events := evs }
        else { done := false, err := none, healthAttempted := true, events := evs }
    else { done := false, err := none, healthAttempted := false, events := [] }

/-- `CheckUpgradeStatus`: wraps `checkUpgradeProgress`; on completion an
additional `RollingUpgradeCompleted` event is emitted. -/
def CheckUpgradeStatus (env : StsStore) (cluster : MarklogicCluster) :
    Bool × Option String × List Event :=
  let p := checkUpgradeProgress env cluster
  match p.err with
  | some e => (false, some e, p.events)
  | Option.none =>
    if p.done then
      (true, none, p.events ++
        [{ etype := "Normal", reason := "RollingUpgradeCompleted",
           message := "Rolling upgrade completed successfully" }])
    else (false, none, p.events)

/-- `performRollingUpgrade`: emits the five simulated upgrade-step events and
returns no error. -/
def performRollingUpgrade (_cluster : MarklogicCluster) : List Event × Option String :=
  ([{ etype := "Normal", reason := "UpgradeProgress", message := "Updating cluster specification" },
    { etype := "Normal", reason := "UpgradeProgress", message := "Rolling out new image to StatefulSets" },
    { etype := "Normal", reason := "UpgradeProgress", message := "Waiting for pod updates" },
    { etype := "Normal", reason := "UpgradeProgress", message := "Validating cluster health" },
    { etype := "Normal", reason := "UpgradeProgress", message := "Finalizing upgrade configuration" }], none)

/-- `StartRollingUpgrade`: emits `RollingUpgradeStarted` and performs the
simulated rollout initiation. -/
def StartRollingUpgrade (cluster : MarklogicCluster) : List Event × Option String :=
  let p := performRollingUpgrade cluster
  ({ etype := "Normal", reason := "RollingUpgradeStarted",
     message := "Rolling upgrade initiated" } :: p.1, p.2)

/-! ### Upgrade orchestrator (`HandleUpgradeWorkflow` and its handlers) -/

/-- `updateCondition`: upsert a condition by `Type` (replace the first
matching entry, else append). -/
def updateCondition : List Condition → Condition → List Condition
  | [], newCondition => [newCondition]
  | c :: rest, newCondition =>
    if c.type' = newCondition.type' then newCondition :: rest
    else c :: updateCondition rest newCondition

/-- The annotation map written by `updateUpgradeStateWithResults`: the state
annotation, plus the serialized report when one was produced (and its
serialization succeeded). -/
def upgradeStateAnnotations (cluster : MarklogicCluster) (state : String)
    (results : Option PrecheckResults) : Annotations :=
  let a := annSet cluster.annotations AnnotationUpgradeState state
  match results with
  | some r =>
    match r.ToJSON with
    | (resultsJson, Option.none) => annSet a AnnotationPrecheckResults resultsJson
    | (_, some _) => a
  | Option.none => a

/-- The status subrecord written by `updateUpgradeStateWithResults`:
`UpgradePaused`, `UpgradeState`, `LastUpgradeTime` on completion, and the
upserted `UpgradeInProgress` condition. -/
def upgradeStateStatus (now : Int) (status0 : MarklogicClusterStatus)
    (state : String) : MarklogicClusterStatus :=
  let condStatus : String :=
    if state = UpgradeStateCompleted ∨ state = UpgradeStateFailed ∨
       state = UpgradeStateCancelled then "False" else "True"
  { status0 with
    upgradePaused := state == UpgradeStateWaitingUser,
    upgradeState := state,
    lastUpgradeTime :=
      if state = UpgradeStateCompleted then some now else status0.lastUpgradeTime,
    conditions := updateCondition status0.conditions
      { type' := "UpgradeInProgress", status := condStatus, reason := state,
        message := "Upgrade workflow in state: " ++ state,
        lastTransitionTime := now } }

/-- `updateUpgradeStateWithResults` with both Kubernetes writes succeeding:
persists the new annotations and status, returns `(ctrl.Result{}, nil)`. -/
def updateUpgradeStateWithResults (now : Int) (cluster : MarklogicCluster)
    (state : String) (results : Option PrecheckResults) : WorkflowOut :=
  { cluster := { cluster with
      annotations := upgradeStateAnnotations cluster state results,
      status := upgradeStateStatus now cluster.status state },
    res := {}, events := [], err := none }

/-- `updateUpgradeState`: `updateUpgradeStateWithResults` with no report. -/
def updateUpgradeState (now : Int) (cluster : MarklogicCluster)
    (state : String) : WorkflowOut :=
  updateUpgradeStateWithResults now cluster state none

/-- The annotation map written by `cleanupUpgradeAnnotations`: the final
state, with the three control-signal annotations removed and the precheck
results kept. -/
def cleanupAnnotationMap (a : Annotations) (finalState : String) : Annotations :=
  annDelete
    (annDelete
      (annDelete (annSet a AnnotationUpgradeState finalState)
        AnnotationTriggerUpgrade)
      AnnotationProceedUpgrade)
    AnnotationCancelUpgrade

/-- The status subrecord written by `cleanupUpgradeAnnotations`. -/
def cleanupStatus (now : Int) (status0 : MarklogicClusterStatus)
    (finalState : String) : MarklogicClusterStatus :=
  { status0 with
    upgradePaused := false,
    upgradeState := finalState,
    lastUpgradeTime :=
      if finalState = UpgradeStateCompleted then some now
      else status0.lastUpgradeTime,
    conditions := updateCondition status0.conditions
      { type' := "UpgradeInProgress", status := "False", reason := finalState,
        message := "Upgrade workflow completed with state: " ++ finalState,
        lastTransitionTime := now } }

/-- `cleanupUpgradeAnnotations` with both Kubernetes writes succeeding. -/
def cleanupUpgradeAnnotations (now : Int) (cluster : MarklogicCluster)
    (finalState : String) : WorkflowOut :=
  { cluster := { cluster with
      annotations := cleanupAnnotationMap cluster.annotations finalState,
      status := cleanupStatus now cluster.status finalState },
    res := {}, events := [], err := none }

/-- `detectImageChanges`: an image change requires a recorded current image
that differs from the spec image. -/
def detectImageChanges (cluster : MarklogicCluster) : Bool :=
  if cluster.status.currentImage = "" then false
  else cluster.status.currentImage != cluster.specImage

/-- `isClusterDeployed`: a recorded current image, or sufficient age, or a
`Ready`/`Deployed` condition marks the cluster as deployed. Ages are in
seconds (`5 * 60` is the five-minute threshold of the source). -/
def isClusterDeployed (now : Int) (cluster : MarklogicCluster) : Bool :=
  if cluster.status.currentImage ≠ "" then true
  else if now - cluster.creationTimestamp < 5 * 60 then false
  else if cluster.status.conditions.any (fun c =>
      (c.type' == "Ready" && c.status == "True") ||
      (c.type' == "Deployed" && c.status == "True")) then true
  else decide (now - cluster.creationTimestamp > 5 * 60)

/-- `updateStatusAfterDeployment`: record the spec image as the current
image (status write succeeds). -/
def updateStatusAfterDeployment (cluster : MarklogicCluster) : MarklogicCluster :=
  { cluster with status := { cluster.status with currentImage := cluster.specImage } }

/-- `updateCurrentImages`: record the spec image as the current image after
a completed upgrade (status write succeeds). -/
def updateCurrentImages (cluster : MarklogicCluster) : MarklogicCluster :=
  { cluster with status := { cluster.status with currentImage := cluster.specImage } }

/-- `handleIdleState`: on `trigger=true` start prechecks and move to
`PrecheckStarted` (or `UpgradeFailed` if starting fails); otherwise no-op. -/
def handleIdleState (now : Int) (cluster : MarklogicCluster) : WorkflowOut :=
  if annGet cluster.annotations AnnotationTriggerUpgrade = "true" then
    match StartPrechecks cluster with
    | (evs, some e) =>
      let out := updateUpgradeState now cluster UpgradeStateFailed
      { out with events := evs ++
          [{ etype := "Warning", reason := "PrecheckFailed",
             message := "Failed to start prechecks: " ++ e }] ++ out.events }
    | (evs, Option.none) =>
      let out := updateUpgradeState now cluster UpgradeStatePrecheckStart
      { out with events := evs ++
          [{ etype := "Normal", reason := "PrecheckStarted",
             message := "Upgrade prechecks started" }] ++ out.events }
  else { cluster := cluster, res := {}, events := [], err := none }

/-- `handlePrecheckStartState`: poll the precheck status; on completion store
the report and move to `PrecheckCompleted`, otherwise requeue after two
minutes. -/
def handlePrecheckStartState (now : Int) (cluster : MarklogicCluster) : WorkflowOut :=
  match CheckPrecheckStatus now cluster with
  | (completed, results, errc) =>
    match errc with
    | some e =>
      let out := updateUpgradeState now cluster UpgradeStateFailed
      { out with events :=
          { etype := "Warning", reason := "PrecheckError",
            message := "Error during prechecks: " ++ e } :: out.events }
    | Option.none =>
      if !completed then
        { cluster := cluster, res := { requeueAfter := 2 }, events := [], err := none }
      else
        let out := updateUpgradeStateWithResults now cluster
          UpgradeStatePrecheckDone (some results)
        { out with events :=
            { etype := "Normal", reason := "PrecheckCompleted",
              message := "Prechecks completed with " ++
                toString results.results.length ++ " checks" } :: out.events }

/-- `handlePrecheckDoneState`: surface the report for review and move to
`WaitingForUserApproval`. -/
def handlePrecheckDoneState (now : Int) (cluster : MarklogicCluster) : WorkflowOut :=
  let out := updateUpgradeState now cluster UpgradeStateWaitingUser
  { out with events :=
      { etype := "Normal", reason := "AwaitingApproval",
        message := "Prechecks completed. Review results and set annotation " ++
          AnnotationProceedUpgrade ++ "=true to proceed or " ++
          AnnotationCancelUpgrade ++ "=true to cancel" } :: out.events }

/-- `handleWaitingUserState`: on `proceed=true` start the rolling upgrade and
move to `UpgradeInProgress` (or `UpgradeFailed` if starting fails);
otherwise requeue after five minutes. -/
def handleWaitingUserState (now : Int) (cluster : MarklogicCluster) : WorkflowOut :=
  if annGet cluster.annotations AnnotationProceedUpgrade = "true" then
    match StartRollingUpgrade cluster with
    | (evs, some e) =>
      let out := updateUpgradeState now cluster UpgradeStateFailed
      { out with events :=
          { etype := "Normal", reason := "UpgradeApproved",
            message := "User approved upgrade, starting rolling upgrade" } ::
          evs ++
          [{ etype := "Warning", reason := "UpgradeFailed",
             message := "Failed to start rolling upgrade: " ++ e }] ++ out.events }
    | (evs, Option.none) =>
      let out := updateUpgradeState now cluster UpgradeStateInProgress
      { out with events :=
          { etype := "Normal", reason := "UpgradeApproved",
            message := "User approved upgrade, starting rolling upgrade" } ::
          evs ++ out.events }
  else { cluster := cluster, res := { requeueAfter := 5 }, events := [], err := none }

/-- `handleInProgressState`: poll the rolling upgrade; on an error move to
`UpgradeFailed`; while incomplete requeue after two minutes; on completion
record the new current image and clean up with `UpgradeCompleted`. -/
def handleInProgressState (now : Int) (env : StsStore)
    (cluster : MarklogicCluster) : WorkflowOut :=
  match CheckUpgradeStatus env cluster with
  | (_, some e, evs) =>
    let out := updateUpgradeState now cluster UpgradeStateFailed
    { out with events := evs ++
        [{ etype := "Warning", reason := "UpgradeError",
           message := "Error during rolling upgrade: " ++ e }] ++ out.events }
  | (completed, Option.none, evs) =>
    if !completed then
      { cluster := cluster, res := { requeueAfter := 2 }, events := evs, err := none }
    else
      let out := cleanupUpgradeAnnotations now (updateCurrentImages cluster)
        UpgradeStateCompleted
      { out with events := evs ++
          [{ etype := "Normal", reason := "UpgradeCompleted",
             message := "Rolling upgrade completed successfully" }] ++ out.events }

/-- `handleCancellation`: refused (warning event, no change) while
`UpgradeInProgress`; otherwise accepted, cleaning up with
`UpgradeCancelled`. -/
def handleCancellation (now : Int) (cluster : MarklogicCluster) : WorkflowOut :=
  let currentState := annGet cluster.annotations AnnotationUpgradeState
  if currentState = UpgradeStateInProgress then
    { cluster := cluster, res := {},
      events := [{ etype := "Warning", reason := "CancellationDenied",
                   message := "Cannot cancel upgrade while rolling upgrade is in progress" }],
      err := none }
  else
    let out := cleanupUpgradeAnnotations now cluster UpgradeStateCancelled
    { out with events :=
        { etype := "Normal", reason := "UpgradeCancelled",
          message := "Upgrade cancelled by user" } :: out.events }

/-- The `switch currentState` dispatch of `HandleUpgradeWorkflow`: terminal
states clean up back to `Idle`; an unrecognized state is defensively reset
to `Idle`. -/
def handleUpgradeWorkflowSwitch (now : Int) (env : StsStore)
    (cluster : MarklogicCluster) (currentState : String) : WorkflowOut :=
  if currentState = UpgradeStateIdle then handleIdleState now cluster
  else if currentState = UpgradeStatePrecheckStart then
    handlePrecheckStartState now cluster
  else if currentState = UpgradeStatePrecheckDone then
    handlePrecheckDoneState now cluster
  else if currentState = UpgradeStateWaitingUser then
    handleWaitingUserState now cluster
  else if currentState = UpgradeStateInProgress then
    handleInProgressState now env cluster
  else if currentState = UpgradeStateCompleted ∨ currentState = UpgradeStateFailed ∨
          currentState = UpgradeStateCancelled then
    cleanupUpgradeAnnotations now cluster UpgradeStateIdle
  else updateUpgradeState now cluster UpgradeStateIdle

/-- The state read of `HandleUpgradeWorkflow`: a missing or empty state
annotation defaults to `Idle`. -/
def effectiveUpgradeState (cluster : MarklogicCluster) : String :=
  let s := annGet cluster.annotations AnnotationUpgradeState
  if s = "" then UpgradeStateIdle else s

/-- One invocation of the upgrade orchestrator (`HandleUpgradeWorkflow`):
new-cluster baseline recording, image-drift auto-trigger, the idle early
return, the cancellation pre-check, then the state dispatch. Kubernetes
writes are modelled as succeeding. -/
def HandleUpgradeWorkflow (now : Int) (env : StsStore)
    (cluster : MarklogicCluster) : WorkflowOut :=
  let currentState := effectiveUpgradeState cluster
  if currentState = UpgradeStateIdle ∧ isClusterDeployed now cluster = false then
    { cluster := updateStatusAfterDeployment cluster, res := {},
      events := [], err := none }
  else
    let cluster1 :=
      if currentState = UpgradeStateIdle ∧ isClusterDeployed now cluster = true ∧
         detectImageChanges cluster = true then
        { cluster with
            annotations :=
              annSet cluster.annotations AnnotationTriggerUpgrade "true" }
      else cluster
    if currentState = UpgradeStateIdle ∧
       annGet cluster1.annotations AnnotationTriggerUpgrade ≠ "true" then
      { cluster := cluster1, res := {}, events := [], err := none }
    else if annGet cluster1.annotations AnnotationCancelUpgrade = "true" then
      handleCancellation now cluster1
    else
      handleUpgradeWorkflowSwitch now env cluster1 currentState

/-! ### The two-phase persisted write of `updateUpgradeStateWithResults`

`updateUpgradeStateWithResults` persists its changes with two Kubernetes
requests: `h.Update(ctx, cluster)` commits the object (and with it the state
and report annotations), then `h.Status().Update(ctx, cluster)` commits the
status subresource (and with it the status condition). Each request either
applies in full or not at all, and a failed first request aborts the
function before the second. `cleanupUpgradeAnnotations` uses the same
two-request pattern. The model below makes the committed store and the two
write outcomes explicit. -/

/-- The durable store for one cluster: the committed object annotations and
the committed status subresource. -/
structure ClusterStore where
  annotations : Annotations
  status : MarklogicClusterStatus

/-- `updateUpgradeStateWithResults` acting on the durable store:
`objWriteOk` is the outcome of `h.Update`, `statusWriteOk` the outcome of
`h.Status().Update` (the second request is only issued when the first
succeeded). Returns the committed store and the returned error. -/
def updateUpgradeStateWithResultsStore (now : Int) (store : ClusterStore)
    (cluster : MarklogicCluster) (state : String)
    (results : Option PrecheckResults) (objWriteOk statusWriteOk : Bool) :
    ClusterStore × Option String :=
  let newAnnotations :=
    upgradeStateAnnotations { cluster with annotations := store.annotations }
      state results
  let newStatus := upgradeStateStatus now store.status state
  if !objWriteOk then
    (store, some "failed to update cluster annotations")
  else if !statusWriteOk then
    ({ annotations := newAnnotations, status := store.status },
     some "failed to update cluster status")
  else
    ({ annotations := newAnnotations, status := newStatus }, none)

/-! ### Simp lemmas for the annotation map -/

theorem annGet_annSet (a : Annotations) (k v x : String) :
    annGet (annSet a k v) x = if x = k then v else annGet a x := by
  by_cases h : x = k <;> simp [annGet, annSet, h]

theorem annSet_apply (a : Annotations) (k v x : String) :
    annSet a k v x = if x = k then some v else a x := rfl

theorem annDelete_apply (a : Annotations) (k x : String) :
    annDelete a k x = if x = k then none else a x := rfl

theorem annGet_annDelete (a : Annotations) (k x : String) :
    annGet (annDelete a k) x = if x = k then "" else annGet a x := by
  by_cases h : x = k <;> simp [annGet, annDelete, h]

/-! ### Shared concrete instances for witnesses and counterexamples -/

/-- A status for a cluster already deployed at image 11.3.0. -/
def sampleStatus : MarklogicClusterStatus :=
  { currentImage := "marklogicdb/marklogic-db:11.3.0", upgradeState := "",
    upgradePaused := false, lastUpgradeTime := none, conditions := [] }

/-- A deployed sample cluster with the given annotations. -/
def sampleCluster (anns : List (String × String)) : MarklogicCluster :=
  { name := "test-cluster", nsName := "default", creationTimestamp := 0,
    specImage := "marklogicdb/marklogic-db:11.3.0", markLogicGroups := [],
    annotations := annOf anns, status := sampleStatus }

/-- A precheck report containing one `FAIL` result. -/
def failingReport : PrecheckResults :=
  { results := [{ name := "Cluster Health Check", status := "FAIL",
                  message := "node down", details := "", timestamp := 0,
                  duration := "1s", remediation := "" }],
    summary := { total := 1, passed := 0, warnings := 0, failed := 1,
                 canProceed := false },
    timestamp := 0, clusterRef := "default/test-cluster" }

/-- An empty StatefulSet store (every lookup is not-found). -/
def emptyEnv : StsStore := fun _ => none

/-! ### Claim C4 -/

/-- C4: every report produced by the precheck runner satisfies
`canProceed = (failed == 0)`, and equivalently `canProceed` is true exactly
when no result has status `FAIL` (so `WARN` results never block). -/
theorem mock_report_canProceed_iff_failed_zero (now : Int)
    (cluster : MarklogicCluster) (skipForestCheck : Bool) :
    (generateMockPrecheckResults now cluster skipForestCheck).summary.canProceed
      = ((generateMockPrecheckResults now cluster skipForestCheck).summary.failed == 0)
    ∧ (generateMockPrecheckResults now cluster skipForestCheck).summary.canProceed
      = (generateMockPrecheckResults now cluster skipForestCheck).results.all
          (fun r => r.status != "FAIL") := by
  cases skipForestCheck <;> exact ⟨rfl, rfl⟩

/-! ### Claim C5 -/

theorem precheckResult_roundtrip (r : PrecheckResult) :
    precheckResultFromJson (precheckResultToJson r) = some r := by
  obtain ⟨n, s, m, d, t, du, re⟩ := r
  by_cases h1 : d = "" <;> by_cases h2 : re = "" <;>
    simp [precheckResultToJson, precheckResultFromJson, h1, h2, lookupField,
      fieldAsStr, fieldAsInt]

theorem decodeResultsList_roundtrip (xs : List PrecheckResult) :
    decodeResultsList (xs.map precheckResultToJson) = some xs := by
  induction xs with
  | nil => rfl
  | cons x xs ih => simp [decodeResultsList, precheckResult_roundtrip, ih]

theorem precheckSummary_roundtrip (s : PrecheckSummary) :
    precheckSummaryFromJson (precheckSummaryToJson s) = some s := by
  simp [precheckSummaryToJson, precheckSummaryFromJson, lookupField,
    fieldAsInt, fieldAsBool]

/-- C5: serializing any precheck report to its JSON document and
deserializing the document yields the original report — the
`json.Marshal`/`json.Unmarshal` pair behind `ToJSON` and
`PrecheckResultsFromJSON` is a lossless round trip on `PrecheckResults`. -/
theorem precheckResults_json_roundtrip (r : PrecheckResults) :
    precheckResultsFromJson (precheckResultsToJson r) = some r := by
  simp [precheckResultsToJson, precheckResultsFromJson, lookupField,
    fieldAsInt, fieldAsStr, decodeResultsList_roundtrip, precheckSummary_roundtrip]

/-! ### Claim C10 -/

/-- C10: `CheckPrecheckStatus` reports completion on every (hence the very
first) call, with a report of exactly eight results, none of status `FAIL`,
and `canProceed = true`; the skip-forest-check flag changes only the fourth
result (the forest check, `PASS` instead of `WARN`); consequently
`handlePrecheckStartState` always stores the report and moves to
`PrecheckCompleted` — its report-not-ready requeue branch is unreachable. -/
theorem prechecks_complete_first_call_eight_results (now : Int)
    (cluster : MarklogicCluster) :
    (CheckPrecheckStatus now cluster).1 = true ∧
    (CheckPrecheckStatus now cluster).2.2 = none ∧
    (CheckPrecheckStatus now cluster).2.1.results.length = 8 ∧
    (CheckPrecheckStatus now cluster).2.1.results.all (fun r => r.status != "FAIL") = true ∧
    (CheckPrecheckStatus now cluster).2.1.summary.canProceed = true ∧
    (generateMockPrecheckResults now cluster true).results.take 3
      = (generateMockPrecheckResults now cluster false).results.take 3 ∧
    (generateMockPrecheckResults now cluster true).results.drop 4
      = (generateMockPrecheckResults now cluster false).results.drop 4 ∧
    ((generateMockPrecheckResults now cluster false).results.get? 3).map
      PrecheckResult.status = some "WARN" ∧
    ((generateMockPrecheckResults now cluster true).results.get? 3).map
      PrecheckResult.status = some "PASS" ∧
    ((generateMockPrecheckResults now cluster true).results.get? 3).map
      PrecheckResult.name = some "Forest Health Check" ∧
    ((generateMockPrecheckResults now cluster false).results.get? 3).map
      PrecheckResult.name = some "Forest Health Check" ∧
    (handlePrecheckStartState now cluster).res.requeueAfter = 0 ∧
    annGet (handlePrecheckStartState now cluster).cluster.annotations
      AnnotationUpgradeState = "PrecheckCompleted" ∧
    (handlePrecheckStartState now cluster).err = none := by
  by_cases hs : annGet cluster.annotations AnnotationSkipForestCheck = "true"
  case pos =>
    have h1 : CheckPrecheckStatus now cluster
        = (true, generateMockPrecheckResults now cluster true, none) := by
      simp [CheckPrecheckStatus, hs]
    refine ⟨by rw [h1], by rw [h1], by rw [h1]; rfl, by rw [h1]; rfl,
      by rw [h1]; rfl, rfl, rfl, rfl, rfl, rfl, rfl, ?_, ?_, ?_⟩ <;>
      simp [handlePrecheckStartState, h1, updateUpgradeStateWithResults,
        upgradeStateAnnotations, annGet_annSet, AnnotationUpgradeState,
        AnnotationPrecheckResults, UpgradeStatePrecheckDone, PrecheckResults.ToJSON]
  case neg =>
    have h1 : CheckPrecheckStatus now cluster
        = (true, generateMockPrecheckResults now cluster false, none) := by
      simp [CheckPrecheckStatus, hs]
    refine ⟨by rw [h1], by rw [h1], by rw [h1]; rfl, by rw [h1]; rfl,
      by rw [h1]; rfl, rfl, rfl, rfl, rfl, rfl, rfl, ?_, ?_, ?_⟩ <;>
      simp [handlePrecheckStartState, h1, updateUpgradeStateWithResults,
        upgradeStateAnnotations, annGet_annSet, AnnotationUpgradeState,
        AnnotationPrecheckResults, UpgradeStatePrecheckDone, PrecheckResults.ToJSON]

/-! ### Claim C8 -/

/-- The spec-side convergence predicate: every member group's ready replica
count equals its desired replica count (a missing workload counts as not
converged). -/
def allGroupsConverged (env : StsStore) (cluster : MarklogicCluster) : Bool :=
  cluster.markLogicGroups.all (fun g =>
    match env g.name with
    | some readyReplicas => readyReplicas == g.replicas
    | Option.none => false)

theorem checkStatefulSetUpgradeStatus_eq (env : StsStore) (g : MarklogicGroups) :
    checkStatefulSetUpgradeStatus env g
      = ((match env g.name with
          | some readyReplicas => readyReplicas == g.replicas
          | Option.none => false), none) := by
  unfold checkStatefulSetUpgradeStatus
  cases env g.name with
  | none => rfl
  | some r => by_cases h : r = g.replicas <;> simp [h]

theorem checkGroupsUpdated_eq (env : StsStore) (groups : List MarklogicGroups) :
    checkGroupsUpdated env groups
      = (groups.all (fun g =>
          match env g.name with
          | some readyReplicas => readyReplicas == g.replicas
          | Option.none => false), none) := by
  induction groups with
  | nil => rfl
  | cons g gs ih =>
    simp [checkGroupsUpdated, checkStatefulSetUpgradeStatus_eq, ih, List.all_cons]

theorem checkUpgradeProgress_eq (env : StsStore) (cluster : MarklogicCluster) :
    checkUpgradeProgress env cluster
      = if allGroupsConverged env cluster then
          { done := true, err := none, healthAttempted := true,
            events := (performClusterHealthCheck cluster).2.2 }
        else { done := false, err := none, healthAttempted := false, events := [] } := by
  unfold checkUpgradeProgress allGroupsConverged
  rw [checkGroupsUpdated_eq]
  rfl

/-- C8: the rollout status check reports completion exactly when every
member group has `readyReplicas == desiredReplicas` and the cluster-wide
health probe passes; the health probe is attempted only after all groups
converged; a missing group workload yields not-done without error; and while
some group is unconverged, `handleInProgressState` leaves the cluster
unchanged and requeues (two minutes) without error, so polling continues. -/
theorem upgrade_progress_done_iff_converged_and_healthy (now : Int)
    (env : StsStore) (cluster : MarklogicCluster) :
    (checkUpgradeProgress env cluster).err = none ∧
    (checkUpgradeProgress env cluster).done
      = (allGroupsConverged env cluster && (performClusterHealthCheck cluster).1) ∧
    (checkUpgradeProgress env cluster).healthAttempted
      = allGroupsConverged env cluster ∧
    (∀ g : MarklogicGroups, env g.name = none →
      checkStatefulSetUpgradeStatus env g = (false, none)) ∧
    (allGroupsConverged env cluster = false →
      (handleInProgressState now env cluster).res.requeueAfter = 2 ∧
      (handleInProgressState now env cluster).cluster = cluster ∧
      (handleInProgressState now env cluster).err = none) := by
  refine ⟨?_, ?_, ?_, ?_, ?_⟩
  · rw [checkUpgradeProgress_eq]
    by_cases h : allGroupsConverged env cluster <;> simp [h]
  · rw [checkUpgradeProgress_eq]
    by_cases h : allGroupsConverged env cluster <;>
      simp [h, performClusterHealthCheck]
  · rw [checkUpgradeProgress_eq]
    by_cases h : allGroupsConverged env cluster <;> simp [h]
  · intro g hg
    rw [checkStatefulSetUpgradeStatus_eq, hg]
  · intro h
    have hcs : CheckUpgradeStatus env cluster = (false, none, []) := by
      simp [CheckUpgradeStatus, checkUpgradeProgress_eq, h]
    simp [handleInProgressState, hcs]

/-- Witness for C8 at a concrete input: one group whose StatefulSet is
missing, so the rollout is not done, no error is returned, the health probe
is not attempted, and the in-progress handler requeues. -/
theorem upgrade_progress_done_iff_converged_and_healthy_witness :
    (checkUpgradeProgress emptyEnv
      { sampleCluster [] with markLogicGroups := [{ name := "node", replicas := 2 }] }).done
        = false ∧
    (checkUpgradeProgress emptyEnv
      { sampleCluster [] with markLogicGroups := [{ name := "node", replicas := 2 }] }).healthAttempted
        = false ∧
    checkStatefulSetUpgradeStatus emptyEnv { name := "node", replicas := 2 } = (false, none) ∧
    (handleInProgressState 0 emptyEnv
      { sampleCluster [] with markLogicGroups := [{ name := "node", replicas := 2 }] }).res.requeueAfter
        = 2 := by
  have h := upgrade_progress_done_iff_converged_and_healthy 0 emptyEnv
    { sampleCluster [] with markLogicGroups := [{ name := "node", replicas := 2 }] }
  refine ⟨?_, ?_, h.2.2.2.1 { name := "node", replicas := 2 } rfl, (h.2.2.2.2 (by decide)).1⟩
  · rw [h.2.1]; decide
  · rw [h.2.2.1]; decide

/-! ### Claim C6 -/

/-- An `Idle` deployed cluster with image drift (spec image moved to 11.4.0),
no trigger signal, but a pending cancel signal. -/
def c6ceCluster : MarklogicCluster :=
  { sampleCluster [(AnnotationCancelUpgrade, "true")] with
      specImage := "marklogicdb/marklogic-db:11.4.0" }

/-- C6 counterexample: a deployed `Idle` cluster with image drift and no
explicit trigger, but with the cancel signal set, does not reach
`PrecheckStarted`: the auto-set trigger defeats the idle early return, and
the cancellation check then pre-empts the state dispatch, ending the
invocation in `UpgradeCancelled`. -/
theorem idle_drift_with_cancel_ends_cancelled :
    effectiveUpgradeState c6ceCluster = UpgradeStateIdle ∧
    c6ceCluster.status.currentImage ≠ "" ∧
    c6ceCluster.status.currentImage ≠ c6ceCluster.specImage ∧
    annGet c6ceCluster.annotations AnnotationTriggerUpgrade ≠ "true" ∧
    annGet (HandleUpgradeWorkflow 0 emptyEnv c6ceCluster).cluster.annotations
      AnnotationUpgradeState = UpgradeStateCancelled ∧
    UpgradeStateCancelled ≠ UpgradeStatePrecheckStart := by
  refine ⟨by decide, by decide, by decide, by decide, by decide, by decide⟩

/-- C6 (amended): in `Idle`, a deployed cluster (recorded current image)
whose spec image differs from the recorded image, with no trigger and no
pending cancel signal, is auto-triggered and advances to `PrecheckStarted`
within the same invocation (with `cancel=true` the cancellation pre-empts
the dispatch and the invocation ends in `UpgradeCancelled` instead); and
when no current image is recorded, the invocation leaves the annotations (in
particular the trigger signal) untouched. -/
theorem idle_image_drift_autotriggers_precheck (now : Int) (env : StsStore)
    (cluster : MarklogicCluster) :
    (effectiveUpgradeState cluster = UpgradeStateIdle →
     cluster.status.currentImage ≠ "" →
     cluster.status.currentImage ≠ cluster.specImage →
     annGet cluster.annotations AnnotationTriggerUpgrade ≠ "true" →
     annGet cluster.annotations AnnotationCancelUpgrade ≠ "true" →
      annGet (HandleUpgradeWorkflow now env cluster).cluster.annotations
        AnnotationTriggerUpgrade = "true" ∧
      annGet (HandleUpgradeWorkflow now env cluster).cluster.annotations
        AnnotationUpgradeState = UpgradeStatePrecheckStart ∧
      (HandleUpgradeWorkflow now env cluster).err = none) ∧
    (effectiveUpgradeState cluster = UpgradeStateIdle →
     cluster.status.currentImage = "" →
     annGet cluster.annotations AnnotationTriggerUpgrade ≠ "true" →
      (HandleUpgradeWorkflow now env cluster).cluster.annotations
        = cluster.annotations ∧
      (HandleUpgradeWorkflow now env cluster).err = none) := by
  constructor
  · intro hstate hdeployed hdrift htrigger hcancel
    have hdep : isClusterDeployed now cluster = true := by
      simp [isClusterDeployed, hdeployed]
    have hdet : detectImageChanges cluster = true := by
      simp [detectImageChanges, hdeployed, hdrift]
    simp only [annGet, AnnotationTriggerUpgrade, AnnotationCancelUpgrade]
      at htrigger hcancel
    refine ⟨?_, ?_, ?_⟩ <;>
      simp [HandleUpgradeWorkflow, hstate, hdep, hdet, hcancel, htrigger,
        handleUpgradeWorkflowSwitch, handleIdleState, StartPrechecks,
        updateUpgradeState, updateUpgradeStateWithResults, upgradeStateAnnotations,
        annGet_annSet, UpgradeStateIdle, UpgradeStatePrecheckStart,
        AnnotationTriggerUpgrade, AnnotationUpgradeState, AnnotationCancelUpgrade,
        annGet, annSet]
  · intro hstate hnew htrigger
    have hdet : detectImageChanges cluster = false := by
      simp [detectImageChanges, hnew]
    simp only [annGet, AnnotationTriggerUpgrade] at htrigger
    by_cases hd : isClusterDeployed now cluster = true
    · constructor <;>
        simp [HandleUpgradeWorkflow, hstate, hd, hdet, htrigger,
          UpgradeStateIdle, annGet, updateStatusAfterDeployment,
          AnnotationTriggerUpgrade]
    · simp only [Bool.not_eq_true] at hd
      constructor <;>
        simp [HandleUpgradeWorkflow, hstate, hd, updateStatusAfterDeployment,
          UpgradeStateIdle]

/-- Witness for C6 at a concrete input: a deployed 11.3.0 cluster whose spec
image moved to 11.4.0 is auto-triggered to `PrecheckStarted` in one
invocation. -/
theorem idle_image_drift_autotriggers_precheck_witness :
    annGet (HandleUpgradeWorkflow 0 emptyEnv
      { sampleCluster [] with specImage := "marklogicdb/marklogic-db:11.4.0" }).cluster.annotations
      AnnotationTriggerUpgrade = "true" ∧
    annGet (HandleUpgradeWorkflow 0 emptyEnv
      { sampleCluster [] with specImage := "marklogicdb/marklogic-db:11.4.0" }).cluster.annotations
      AnnotationUpgradeState = UpgradeStatePrecheckStart :=
  let h := (idle_image_drift_autotriggers_precheck 0 emptyEnv
    { sampleCluster [] with specImage := "marklogicdb/marklogic-db:11.4.0" }).1
    (by decide) (by decide) (by decide) (by decide) (by decide)
  ⟨h.1, h.2.1⟩

/-! ### Claim C1 -/

/-- A `WaitingForUserApproval` cluster whose persisted report contains a
`FAIL` result, with `proceed=true` and no force annotation present (the
source reads no force annotation at all in `handleWaitingUserState`). -/
def c1ceCluster : MarklogicCluster :=
  sampleCluster [(AnnotationUpgradeState, UpgradeStateWaitingUser),
                 (AnnotationProceedUpgrade, "true"),
                 (AnnotationPrecheckResults, failingReport.ToJSON.1)]

/-- C1 counterexample: with a persisted report containing a `FAIL` result and
`proceed=true` without any force variant, the invocation in
`WaitingForUserApproval` does start the rollout and moves to
`UpgradeInProgress` — it does not remain `WaitingForUserApproval` as the
claim requires. -/
theorem proceed_with_fail_report_reaches_inProgress :
    failingReport.results.any (fun r => r.status == "FAIL") = true ∧
    c1ceCluster.annotations AnnotationPrecheckResults = some failingReport.ToJSON.1 ∧
    annGet c1ceCluster.annotations AnnotationProceedUpgrade = "true" ∧
    annGet (HandleUpgradeWorkflow 0 emptyEnv c1ceCluster).cluster.annotations
      AnnotationUpgradeState = UpgradeStateInProgress ∧
    UpgradeStateInProgress ≠ UpgradeStateWaitingUser := by
  refine ⟨by decide, rfl, by decide, by decide, by decide⟩

/-- C1 (amended): `handleWaitingUserState` never consults the persisted
report: in `WaitingForUserApproval` (no pending cancel), `proceed=true`
starts the rollout and moves to `UpgradeInProgress` even when the persisted
report contains a `FAIL` result; the state remains `WaitingForUserApproval`
only while `proceed` is not set to true. -/
theorem waitingApproval_proceed_ignores_precheck_report (now : Int)
    (env : StsStore) (cluster : MarklogicCluster) (rep : PrecheckResults)
    (hstate : annGet cluster.annotations AnnotationUpgradeState = UpgradeStateWaitingUser)
    (hcancel : annGet cluster.annotations AnnotationCancelUpgrade ≠ "true")
    (hrep : cluster.annotations AnnotationPrecheckResults = some rep.ToJSON.1)
    (hfail : rep.results.all (fun r => r.status != "FAIL") = false) :
    (annGet cluster.annotations AnnotationProceedUpgrade = "true" →
      annGet (HandleUpgradeWorkflow now env cluster).cluster.annotations
        AnnotationUpgradeState = UpgradeStateInProgress ∧
      (HandleUpgradeWorkflow now env cluster).err = none) ∧
    (annGet cluster.annotations AnnotationProceedUpgrade ≠ "true" →
      (HandleUpgradeWorkflow now env cluster).cluster = cluster ∧
      (HandleUpgradeWorkflow now env cluster).res.requeueAfter = 5) := by
  simp only [annGet, AnnotationUpgradeState, AnnotationCancelUpgrade,
    UpgradeStateWaitingUser] at hstate hcancel
  constructor
  · intro hproceed
    simp only [annGet, AnnotationProceedUpgrade] at hproceed
    constructor <;>
      simp [HandleUpgradeWorkflow, effectiveUpgradeState, annGet, hstate, hcancel,
        hproceed, handleUpgradeWorkflowSwitch, handleWaitingUserState,
        StartRollingUpgrade, performRollingUpgrade, updateUpgradeState,
        updateUpgradeStateWithResults, upgradeStateAnnotations, annSet,
        UpgradeStateIdle, UpgradeStatePrecheckStart, UpgradeStatePrecheckDone,
        UpgradeStateWaitingUser, UpgradeStateInProgress,
        AnnotationUpgradeState, AnnotationCancelUpgrade, AnnotationProceedUpgrade]
  · intro hproceed
    simp only [annGet, AnnotationProceedUpgrade] at hproceed
    constructor <;>
      simp [HandleUpgradeWorkflow, effectiveUpgradeState, annGet, hstate, hcancel,
        hproceed, handleUpgradeWorkflowSwitch, handleWaitingUserState,
        UpgradeStateIdle, UpgradeStatePrecheckStart, UpgradeStatePrecheckDone,
        UpgradeStateWaitingUser, UpgradeStateInProgress,
        AnnotationUpgradeState, AnnotationCancelUpgrade, AnnotationProceedUpgrade]

/-- Witness for the amended C1 at a concrete input. -/
theorem waitingApproval_proceed_ignores_precheck_report_witness :
    annGet (HandleUpgradeWorkflow 0 emptyEnv c1ceCluster).cluster.annotations
      AnnotationUpgradeState = UpgradeStateInProgress ∧
    (HandleUpgradeWorkflow 0 emptyEnv c1ceCluster).err = none :=
  (waitingApproval_proceed_ignores_precheck_report 0 emptyEnv c1ceCluster
    failingReport (by decide) (by decide) rfl (by decide)).1 (by decide)

/-! ### Claim C2 -/

/-- An `Idle` deployed cluster with `cancel=true`, no trigger signal and no
image drift. -/
def c2ceCluster : MarklogicCluster :=
  sampleCluster [(AnnotationUpgradeState, UpgradeStateIdle),
                 (AnnotationCancelUpgrade, "true")]

/-- C2 counterexample: in state `Idle` (which is not `InProgress`) with
`cancel=true` and no trigger, the invocation returns before the cancellation
check — the attempt does not transition to `UpgradeCancelled`, the cancel
signal is not cleared, and no event is emitted, contradicting "cancellation
is accepted from every state except InProgress". -/
theorem idle_cancel_without_trigger_not_accepted :
    annGet c2ceCluster.annotations AnnotationCancelUpgrade = "true" ∧
    annGet c2ceCluster.annotations AnnotationUpgradeState = UpgradeStateIdle ∧
    UpgradeStateIdle ≠ UpgradeStateInProgress ∧
    annGet (HandleUpgradeWorkflow 0 emptyEnv c2ceCluster).cluster.annotations
      AnnotationUpgradeState = UpgradeStateIdle ∧
    (HandleUpgradeWorkflow 0 emptyEnv c2ceCluster).cluster.annotations
      AnnotationCancelUpgrade = some "true" ∧
    (HandleUpgradeWorkflow 0 emptyEnv c2ceCluster).events = [] := by
  refine ⟨by decide, by decide, by decide, by decide, by decide, by decide⟩

/-- C2 (amended): with `cancel=true`, an invocation in `UpgradeInProgress`
refuses the cancellation with no state change and exactly one warning event;
in every persisted state other than `Idle` (and `InProgress`) it is accepted
(state becomes `UpgradeCancelled`, the three control signals are cleared);
in `Idle` it is only accepted when the trigger signal is set (or auto-set by
image drift) — otherwise the invocation returns without consuming it. -/
theorem cancellation_pre_state_dispatch_semantics (now : Int) (env : StsStore)
    (cluster : MarklogicCluster)
    (hcancel : annGet cluster.annotations AnnotationCancelUpgrade = "true") :
    (annGet cluster.annotations AnnotationUpgradeState = UpgradeStateInProgress →
      (HandleUpgradeWorkflow now env cluster).cluster = cluster ∧
      (HandleUpgradeWorkflow now env cluster).events
        = [{ etype := "Warning", reason := "CancellationDenied",
             message := "Cannot cancel upgrade while rolling upgrade is in progress" }] ∧
      (HandleUpgradeWorkflow now env cluster).err = none ∧
      (HandleUpgradeWorkflow now env cluster).res.requeueAfter = 0) ∧
    (annGet cluster.annotations AnnotationUpgradeState ≠ "" →
     annGet cluster.annotations AnnotationUpgradeState ≠ UpgradeStateIdle →
     annGet cluster.annotations AnnotationUpgradeState ≠ UpgradeStateInProgress →
      (HandleUpgradeWorkflow now env cluster).cluster.annotations AnnotationUpgradeState
        = some UpgradeStateCancelled ∧
      (HandleUpgradeWorkflow now env cluster).cluster.annotations AnnotationTriggerUpgrade = none ∧
      (HandleUpgradeWorkflow now env cluster).cluster.annotations AnnotationProceedUpgrade = none ∧
      (HandleUpgradeWorkflow now env cluster).cluster.annotations AnnotationCancelUpgrade = none ∧
      (HandleUpgradeWorkflow now env cluster).err = none) ∧
    ((annGet cluster.annotations AnnotationUpgradeState = UpgradeStateIdle ∨
      annGet cluster.annotations AnnotationUpgradeState = "") →
     isClusterDeployed now cluster = true →
     annGet cluster.annotations AnnotationTriggerUpgrade = "true" →
      (HandleUpgradeWorkflow now env cluster).cluster.annotations AnnotationUpgradeState
        = some UpgradeStateCancelled ∧
      (HandleUpgradeWorkflow now env cluster).cluster.annotations AnnotationTriggerUpgrade = none ∧
      (HandleUpgradeWorkflow now env cluster).cluster.annotations AnnotationProceedUpgrade = none ∧
      (HandleUpgradeWorkflow now env cluster).cluster.annotations AnnotationCancelUpgrade = none ∧
      (HandleUpgradeWorkflow now env cluster).err = none) := by
  simp only [annGet, AnnotationCancelUpgrade] at hcancel
  refine ⟨?_, ?_, ?_⟩
  · intro hstate
    simp only [annGet, AnnotationUpgradeState, UpgradeStateInProgress] at hstate
    refine ⟨?_, ?_, ?_, ?_⟩ <;>
      simp [HandleUpgradeWorkflow, effectiveUpgradeState, annGet, hstate, hcancel,
        handleCancellation, UpgradeStateIdle, UpgradeStateInProgress,
        AnnotationUpgradeState, AnnotationCancelUpgrade]
  · intro hne hni hnp
    simp only [annGet, AnnotationUpgradeState, UpgradeStateIdle,
      UpgradeStateInProgress] at hne hni hnp
    refine ⟨?_, ?_, ?_, ?_, ?_⟩ <;>
      simp [HandleUpgradeWorkflow, effectiveUpgradeState, annGet, hne, hni, hnp,
        hcancel, handleCancellation, cleanupUpgradeAnnotations,
        cleanupAnnotationMap, annSet, annDelete,
        UpgradeStateIdle, UpgradeStateInProgress, UpgradeStateCancelled,
        AnnotationUpgradeState, AnnotationCancelUpgrade, AnnotationTriggerUpgrade,
        AnnotationProceedUpgrade]
  · intro hidle hdep htrig
    simp only [annGet, AnnotationUpgradeState, UpgradeStateIdle] at hidle
    simp only [annGet, AnnotationTriggerUpgrade] at htrig
    rcases hidle with hidle | hidle <;>
      by_cases hdet : detectImageChanges cluster = true <;>
      refine ⟨?_, ?_, ?_, ?_, ?_⟩ <;>
        simp [HandleUpgradeWorkflow, effectiveUpgradeState, annGet, hidle, hdep,
          hdet, htrig, hcancel, handleCancellation, cleanupUpgradeAnnotations,
          cleanupAnnotationMap, annSet, annDelete,
          UpgradeStateIdle, UpgradeStateInProgress, UpgradeStateCancelled,
          AnnotationUpgradeState, AnnotationCancelUpgrade,
          AnnotationTriggerUpgrade, AnnotationProceedUpgrade]

/-- An `UpgradeInProgress` cluster with `cancel=true`. -/
def c2wCluster : MarklogicCluster :=
  sampleCluster [(AnnotationUpgradeState, UpgradeStateInProgress),
                 (AnnotationCancelUpgrade, "true")]

/-- Witness for the amended C2 at a concrete input: cancellation during
`UpgradeInProgress` is refused with exactly one warning event. -/
theorem cancellation_pre_state_dispatch_semantics_witness :
    (HandleUpgradeWorkflow 0 emptyEnv c2wCluster).cluster = c2wCluster ∧
    (HandleUpgradeWorkflow 0 emptyEnv c2wCluster).events
      = [{ etype := "Warning", reason := "CancellationDenied",
           message := "Cannot cancel upgrade while rolling upgrade is in progress" }] ∧
    (HandleUpgradeWorkflow 0 emptyEnv c2wCluster).err = none ∧
    (HandleUpgradeWorkflow 0 emptyEnv c2wCluster).res.requeueAfter = 0 :=
  (cancellation_pre_state_dispatch_semantics 0 emptyEnv c2wCluster (by decide)).1
    (by decide)

/-! ### Claim C3 -/

/-- A committed store mid-attempt: state `PrecheckStarted`, no report, no
conditions yet. -/
def c3Store : ClusterStore :=
  { annotations := annOf [(AnnotationUpgradeState, UpgradeStatePrecheckStart)],
    status := sampleStatus }

/-- C3 counterexample: when the object write succeeds and the status write
fails, the transition to `PrecheckCompleted` leaves a committed store in
which the state annotation and the serialized report are updated but the
status condition is not — and the failed write did not leave the store
unchanged. The three parts are not a single atomic write. -/
theorem state_report_committed_without_condition :
    (updateUpgradeStateWithResultsStore 0 c3Store (sampleCluster [])
      UpgradeStatePrecheckDone (some failingReport) true false).1.annotations
      AnnotationUpgradeState = some UpgradeStatePrecheckDone ∧
    (updateUpgradeStateWithResultsStore 0 c3Store (sampleCluster [])
      UpgradeStatePrecheckDone (some failingReport) true false).1.annotations
      AnnotationPrecheckResults = some failingReport.ToJSON.1 ∧
    (updateUpgradeStateWithResultsStore 0 c3Store (sampleCluster [])
      UpgradeStatePrecheckDone (some failingReport) true false).1.status.conditions = [] ∧
    (updateUpgradeStateWithResultsStore 0 c3Store (sampleCluster [])
      UpgradeStatePrecheckDone (some failingReport) true false).2 ≠ none ∧
    c3Store.annotations AnnotationUpgradeState = some UpgradeStatePrecheckStart := by
  refine ⟨by decide, by decide, by decide, by decide, by decide⟩

/-- C3 (amended): the state-transition write is two-phase, not atomic: the
state annotation and the report are committed together by the first request
(`h.Update`); the status condition is committed by a separate second request
(`h.Status().Update`). A failure of the first request leaves the store
unchanged; a failure of the second leaves the annotations (state and report)
committed with the status unchanged. -/
theorem two_phase_write_commit_semantics (now : Int) (store : ClusterStore)
    (cluster : MarklogicCluster) (state : String)
    (results : Option PrecheckResults) (objWriteOk statusWriteOk : Bool) :
    (objWriteOk = false →
      updateUpgradeStateWithResultsStore now store cluster state results
        objWriteOk statusWriteOk
        = (store, some "failed to update cluster annotations")) ∧
    (objWriteOk = true → statusWriteOk = false →
      (updateUpgradeStateWithResultsStore now store cluster state results
        objWriteOk statusWriteOk).1.annotations
        = upgradeStateAnnotations { cluster with annotations := store.annotations }
            state results ∧
      (updateUpgradeStateWithResultsStore now store cluster state results
        objWriteOk statusWriteOk).1.status = store.status ∧
      (updateUpgradeStateWithResultsStore now store cluster state results
        objWriteOk statusWriteOk).2 = some "failed to update cluster status") ∧
    (objWriteOk = true → statusWriteOk = true →
      (updateUpgradeStateWithResultsStore now store cluster state results
        objWriteOk statusWriteOk).1.annotations
        = upgradeStateAnnotations { cluster with annotations := store.annotations }
            state results ∧
      (updateUpgradeStateWithResultsStore now store cluster state results
        objWriteOk statusWriteOk).1.status = upgradeStateStatus now store.status state ∧
      (updateUpgradeStateWithResultsStore now store cluster state results
        objWriteOk statusWriteOk).2 = none) := by
  cases objWriteOk <;> cases statusWriteOk <;>
    simp [updateUpgradeStateWithResultsStore]

/-- Witness for the amended C3 at a concrete input (first write succeeds,
second fails). -/
theorem two_phase_write_commit_semantics_witness :
    (updateUpgradeStateWithResultsStore 0 c3Store (sampleCluster [])
      UpgradeStatePrecheckDone none true false).1.annotations
      = upgradeStateAnnotations
          { sampleCluster [] with annotations := c3Store.annotations }
          UpgradeStatePrecheckDone none ∧
    (updateUpgradeStateWithResultsStore 0 c3Store (sampleCluster [])
      UpgradeStatePrecheckDone none true false).1.status = c3Store.status ∧
    (updateUpgradeStateWithResultsStore 0 c3Store (sampleCluster [])
      UpgradeStatePrecheckDone none true false).2
      = some "failed to update cluster status" :=
  (two_phase_write_commit_semantics 0 c3Store (sampleCluster [])
    UpgradeStatePrecheckDone none true false).2.1 rfl rfl

/-! ### Claim C7 -/

/-- A terminal-state cluster (`UpgradeCompleted`) whose cancel signal is
still set, with a retained report annotation. -/
def c7ceCluster : MarklogicCluster :=
  sampleCluster [(AnnotationUpgradeState, UpgradeStateCompleted),
                 (AnnotationCancelUpgrade, "true"),
                 (AnnotationPrecheckResults, "report-kept")]

/-- C7 counterexample: observing the terminal state `UpgradeCompleted` with
`cancel=true`, the invocation is pre-empted by the cancellation check and
sets the state to `UpgradeCancelled`, not `Idle`, contradicting the claim
for that signal combination. -/
theorem terminal_state_with_cancel_not_reset_to_idle :
    annGet c7ceCluster.annotations AnnotationUpgradeState = UpgradeStateCompleted ∧
    annGet (HandleUpgradeWorkflow 0 emptyEnv c7ceCluster).cluster.annotations
      AnnotationUpgradeState = UpgradeStateCancelled ∧
    UpgradeStateCancelled ≠ UpgradeStateIdle := by
  refine ⟨by decide, by decide, by decide⟩

/-- C7 (amended): observing a terminal state (`UpgradeCompleted`,
`UpgradeFailed` or `UpgradeCancelled`) with the cancel signal not set, the
invocation removes exactly the three control-signal annotations, sets the
state annotation to `Idle`, keeps the stored report and every other
annotation unchanged, and returns no error. (With `cancel=true` the
cancellation pre-empts the cleanup and the state becomes `UpgradeCancelled`
instead; the reset to `Idle` then happens on the following invocation.) -/
theorem terminal_state_cleanup_resets_to_idle (now : Int) (env : StsStore)
    (cluster : MarklogicCluster)
    (hterm : annGet cluster.annotations AnnotationUpgradeState = UpgradeStateCompleted ∨
      annGet cluster.annotations AnnotationUpgradeState = UpgradeStateFailed ∨
      annGet cluster.annotations AnnotationUpgradeState = UpgradeStateCancelled)
    (hcancel : annGet cluster.annotations AnnotationCancelUpgrade ≠ "true") :
    (HandleUpgradeWorkflow now env cluster).cluster.annotations AnnotationUpgradeState
      = some UpgradeStateIdle ∧
    (HandleUpgradeWorkflow now env cluster).cluster.annotations AnnotationTriggerUpgrade = none ∧
    (HandleUpgradeWorkflow now env cluster).cluster.annotations AnnotationProceedUpgrade = none ∧
    (HandleUpgradeWorkflow now env cluster).cluster.annotations AnnotationCancelUpgrade = none ∧
    (∀ k : String, k ≠ AnnotationUpgradeState → k ≠ AnnotationTriggerUpgrade →
      k ≠ AnnotationProceedUpgrade → k ≠ AnnotationCancelUpgrade →
      (HandleUpgradeWorkflow now env cluster).cluster.annotations k
        = cluster.annotations k) ∧
    (HandleUpgradeWorkflow now env cluster).err = none := by
  simp only [annGet, AnnotationUpgradeState, AnnotationCancelUpgrade,
    AnnotationTriggerUpgrade, AnnotationProceedUpgrade, UpgradeStateCompleted,
    UpgradeStateFailed, UpgradeStateCancelled] at hterm hcancel
  have main : ∀ k : String,
      (HandleUpgradeWorkflow now env cluster).cluster.annotations k
        = cleanupAnnotationMap cluster.annotations UpgradeStateIdle k ∧
      (HandleUpgradeWorkflow now env cluster).err = none := by
    intro k
    rcases hterm with h | h | h <;>
      simp [HandleUpgradeWorkflow, effectiveUpgradeState, annGet, h, hcancel,
        handleUpgradeWorkflowSwitch, cleanupUpgradeAnnotations,
        UpgradeStateIdle, UpgradeStatePrecheckStart, UpgradeStatePrecheckDone,
        UpgradeStateWaitingUser, UpgradeStateInProgress, UpgradeStateCompleted,
        UpgradeStateFailed, UpgradeStateCancelled,
        AnnotationUpgradeState, AnnotationCancelUpgrade, AnnotationTriggerUpgrade]
  refine ⟨?_, ?_, ?_, ?_, ?_, ?_⟩
  · rw [(main AnnotationUpgradeState).1]
    simp [cleanupAnnotationMap, annSet, annDelete, AnnotationUpgradeState,
      AnnotationTriggerUpgrade, AnnotationProceedUpgrade, AnnotationCancelUpgrade,
      UpgradeStateIdle]
  · rw [(main AnnotationTriggerUpgrade).1]
    simp [cleanupAnnotationMap, annSet, annDelete, AnnotationUpgradeState,
      AnnotationTriggerUpgrade, AnnotationProceedUpgrade, AnnotationCancelUpgrade]
  · rw [(main AnnotationProceedUpgrade).1]
    simp [cleanupAnnotationMap, annSet, annDelete, AnnotationUpgradeState,
      AnnotationTriggerUpgrade, AnnotationProceedUpgrade, AnnotationCancelUpgrade]
  · rw [(main AnnotationCancelUpgrade).1]
    simp [cleanupAnnotationMap, annSet, annDelete, AnnotationUpgradeState,
      AnnotationTriggerUpgrade, AnnotationProceedUpgrade, AnnotationCancelUpgrade]
  · intro k hk1 hk2 hk3 hk4
    rw [(main k).1]
    simp only [AnnotationUpgradeState, AnnotationTriggerUpgrade,
      AnnotationProceedUpgrade, AnnotationCancelUpgrade] at hk1 hk2 hk3 hk4
    simp [cleanupAnnotationMap, annSet, annDelete, hk1, hk2, hk3, hk4,
      AnnotationUpgradeState, AnnotationTriggerUpgrade, AnnotationProceedUpgrade,
      AnnotationCancelUpgrade]
  · exact (main "").2

/-- A terminal-state cluster with leftover control signals (cancel unset)
and a retained report annotation. -/
def c7wCluster : MarklogicCluster :=
  sampleCluster [(AnnotationUpgradeState, UpgradeStateCompleted),
                 (AnnotationTriggerUpgrade, "true"),
                 (AnnotationProceedUpgrade, "true"),
                 (AnnotationPrecheckResults, "report-kept")]

/-- Witness for the amended C7 at a concrete input: the terminal cleanup
resets to `Idle`, removes the three control signals, and keeps the report. -/
theorem terminal_state_cleanup_resets_to_idle_witness :
    (HandleUpgradeWorkflow 0 emptyEnv c7wCluster).cluster.annotations
      AnnotationUpgradeState = some UpgradeStateIdle ∧
    (HandleUpgradeWorkflow 0 emptyEnv c7wCluster).cluster.annotations
      AnnotationTriggerUpgrade = none ∧
    (HandleUpgradeWorkflow 0 emptyEnv c7wCluster).cluster.annotations
      AnnotationProceedUpgrade = none ∧
    (HandleUpgradeWorkflow 0 emptyEnv c7wCluster).cluster.annotations
      AnnotationCancelUpgrade = none ∧
    (HandleUpgradeWorkflow 0 emptyEnv c7wCluster).cluster.annotations
      AnnotationPrecheckResults = some "report-kept" ∧
    (HandleUpgradeWorkflow 0 emptyEnv c7wCluster).err = none := by
  have h := terminal_state_cleanup_resets_to_idle 0 emptyEnv c7wCluster
    (Or.inl (by decide)) (by decide)
  refine ⟨h.1, h.2.1, h.2.2.1, h.2.2.2.1, ?_, h.2.2.2.2.2⟩
  rw [h.2.2.2.2.1 AnnotationPrecheckResults (by decide) (by decide) (by decide)
    (by decide)]
  decide

/-! ### Claim C9 -/

/-- A cluster persisted in the declared-but-never-dispatched state
`UpgradePaused`, with the cancel signal also set. -/
def c9ceCluster : MarklogicCluster :=
  sampleCluster [(AnnotationUpgradeState, UpgradeStatePaused),
                 (AnnotationCancelUpgrade, "true")]

/-- C9 counterexample: in the unrecognized state `UpgradePaused` with
`cancel=true`, the invocation accepts the cancellation and sets the state to
`UpgradeCancelled`, not `Idle`, so the claim's unconditional reset to `Idle`
fails for that signal combination. -/
theorem unknown_state_with_cancel_not_reset_to_idle :
    annGet c9ceCluster.annotations AnnotationUpgradeState = UpgradeStatePaused ∧
    annGet (HandleUpgradeWorkflow 0 emptyEnv c9ceCluster).cluster.annotations
      AnnotationUpgradeState = UpgradeStateCancelled ∧
    UpgradeStateCancelled ≠ UpgradeStateIdle := by
  refine ⟨by decide, by decide, by decide⟩

/-- C9 (amended): for every persisted state value outside the recognized set
(including `UpgradePaused`), an invocation with the cancel signal not set
resets the state annotation to `Idle` and returns no error. (With
`cancel=true` the cancellation pre-empts the reset and the state becomes
`UpgradeCancelled` — also without error.) -/
theorem unknown_state_resets_to_idle_without_error (now : Int) (env : StsStore)
    (cluster : MarklogicCluster)
    (h0 : annGet cluster.annotations AnnotationUpgradeState ≠ "")
    (h1 : annGet cluster.annotations AnnotationUpgradeState ≠ UpgradeStateIdle)
    (h2 : annGet cluster.annotations AnnotationUpgradeState ≠ UpgradeStatePrecheckStart)
    (h3 : annGet cluster.annotations AnnotationUpgradeState ≠ UpgradeStatePrecheckDone)
    (h4 : annGet cluster.annotations AnnotationUpgradeState ≠ UpgradeStateWaitingUser)
    (h5 : annGet cluster.annotations AnnotationUpgradeState ≠ UpgradeStateInProgress)
    (h6 : annGet cluster.annotations AnnotationUpgradeState ≠ UpgradeStateCompleted)
    (h7 : annGet cluster.annotations AnnotationUpgradeState ≠ UpgradeStateFailed)
    (h8 : annGet cluster.annotations AnnotationUpgradeState ≠ UpgradeStateCancelled)
    (hcancel : annGet cluster.annotations AnnotationCancelUpgrade ≠ "true") :
    annGet (HandleUpgradeWorkflow now env cluster).cluster.annotations
      AnnotationUpgradeState = UpgradeStateIdle ∧
    (HandleUpgradeWorkflow now env cluster).err = none := by
  simp only [annGet, AnnotationUpgradeState, AnnotationCancelUpgrade,
    UpgradeStateIdle, UpgradeStatePrecheckStart, UpgradeStatePrecheckDone,
    UpgradeStateWaitingUser, UpgradeStateInProgress, UpgradeStateCompleted,
    UpgradeStateFailed, UpgradeStateCancelled]
    at h0 h1 h2 h3 h4 h5 h6 h7 h8 hcancel
  constructor <;>
    simp [HandleUpgradeWorkflow, effectiveUpgradeState, annGet, annGet_annSet,
      h0, h1, h2, h3, h4, h5, h6, h7, h8, hcancel,
      handleUpgradeWorkflowSwitch, updateUpgradeState,
      updateUpgradeStateWithResults, upgradeStateAnnotations, annSet,
      UpgradeStateIdle, UpgradeStatePrecheckStart, UpgradeStatePrecheckDone,
      UpgradeStateWaitingUser, UpgradeStateInProgress, UpgradeStateCompleted,
      UpgradeStateFailed, UpgradeStateCancelled,
      AnnotationUpgradeState, AnnotationCancelUpgrade]

/-- A cluster persisted in `UpgradePaused` with no pending signals. -/
def c9wCluster : MarklogicCluster :=
  sampleCluster [(AnnotationUpgradeState, UpgradeStatePaused)]

/-- Witness for the amended C9 at a concrete input: `UpgradePaused` is reset
to `Idle` without error. -/
theorem unknown_state_resets_to_idle_without_error_witness :
    annGet (HandleUpgradeWorkflow 0 emptyEnv c9wCluster).cluster.annotations
      AnnotationUpgradeState = UpgradeStateIdle ∧
    (HandleUpgradeWorkflow 0 emptyEnv c9wCluster).err = none :=
  unknown_state_resets_to_idle_without_error 0 emptyEnv c9wCluster
    (by decide) (by decide) (by decide) (by decide) (by decide) (by decide)
    (by decide) (by decide) (by decide) (by decide)
